import Mathlib

/-!
Shallow embedding of `screeps-cache` (src/src/lib.rs): a single-slot,
lazily-filled, expiration-aware cache cell with a fluent accessor protocol.

Slots are `Option T`.  The Rust code has two slot backends:
  * `&mut Option<T>` (exclusive slot) — modelled in namespace `OptionSlot`;
  * `&RefCell<Option<T>>` (shared slot) — modelled in namespace `RefCellSlot`,
    where each function additionally returns the sequence of dynamic borrow
    events it performs on the `RefCell`, and the handle produced by the final
    `Ref::map(..., |v| v.as_ref().unwrap())` is kept as an `Option T`
    (so that "the unwrap never fails" is a provable statement rather than
    being baked in).

Functions are instrumented with invocation counters: each slot operation
returns, besides the new slot contents and its result, the number of times
it invoked the caller-supplied expiration predicate / filler closure.

The accessor state machines (`CacheState` / `MaybeCacheState`,
`CacheAccesor` / `MaybeCacheAccesor`, names kept as spelled in the source)
are generic over a record of slot operations, mirroring the trait bounds
`FastCacheExpiration + FastCacheGet` (resp. `FastCacheMaybeGet`) of the
source.  The `unsafe { std::hint::unreachable_unchecked() }` arms of
`get`/`take` are modelled by returning `none`: reaching them would be
undefined behaviour, and the development proves the `none` outcome is
impossible.
-/

namespace ScreepsCache

/-- Dynamic borrow events performed on a `RefCell`:
`sharedAcq`/`sharedRel` for `borrow()` guard acquisition and release,
`mutAcq`/`mutRel` for `borrow_mut()`. -/
inductive BorrowEvent where
  | sharedAcq : BorrowEvent
  | sharedRel : BorrowEvent
  | mutAcq : BorrowEvent
  | mutRel : BorrowEvent
deriving DecidableEq, Repr

/-- One step of the `RefCell` dynamic borrow checker.  The state is
`(readers, writerActive)`; `none` models a borrow-conflict panic. -/
def borrowStep : Nat × Bool → BorrowEvent → Option (Nat × Bool)
  | (r, false), BorrowEvent.sharedAcq => some (r + 1, false)
  | (_, true), BorrowEvent.sharedAcq => none
  | (r + 1, w), BorrowEvent.sharedRel => some (r, w)
  | (0, _), BorrowEvent.sharedRel => none
  | (0, false), BorrowEvent.mutAcq => some (0, true)
  | (_, _), BorrowEvent.mutAcq => none
  | (r, true), BorrowEvent.mutRel => some (r, false)
  | (_, false), BorrowEvent.mutRel => none

/-- A borrow-event trace is conflict-free when, starting from a `RefCell`
with no outstanding borrows, every event succeeds. -/
def borrowOk (tr : List BorrowEvent) : Bool :=
  (tr.foldl (fun st e => st.bind (fun s => borrowStep s e)) (some (0, false))).isSome

/-- Exclusive slot: `impl FastCacheExpiration<T> for &mut Option<T>`.
Source: `if self.as_ref().map(expiration).unwrap_or(false) { self.take(); } self`.
Returns the slot afterwards and how many times `expiration` was invoked. -/
def OptionSlot.expire_with {T : Type} (s : Option T) (expiration : T → Bool) :
    Option T × Nat :=
  match s with
  | none => (none, 0)
  | some v => if expiration v then (none, 1) else (some v, 1)

/-- Exclusive slot: `impl FastCacheGet for &mut Option<T>` delegates to
`Option::get_or_insert_with`: if the slot is `none`, store `f()`; return a
reference to the contained value.  Returns (slot after, referenced value,
filler invocation count). -/
def OptionSlot.get_or_insert_with {T : Type} (s : Option T) (f : Unit → T) :
    Option T × T × Nat :=
  match s with
  | some v => (some v, v, 0)
  | none =>
    let v := f ()
    (some v, v, 1)

/-- Exclusive slot: `impl FastCacheMaybeGet for &mut Option<T>`.
Source: `if self.is_none() { *self = f(); } self.as_ref()`.
Returns (slot after, result of `as_ref`, filler invocation count). -/
def OptionSlot.maybe_get_or_insert_with {T : Type} (s : Option T)
    (f : Unit → Option T) : Option T × Option T × Nat :=
  if s.isNone then
    let r := f ()
    (r, r, 1)
  else
    (s, s, 0)

/-- Shared slot: `impl FastCacheExpiration<T> for &RefCell<Option<T>>`.
Source: `if self.borrow().as_ref().map(expiration).unwrap_or(false)
{ self.borrow_mut().take(); } self`.  The `borrow()` guard of the condition
is dropped before the `borrow_mut()` of the body is acquired.  Returns
(slot after, predicate invocation count, borrow-event trace). -/
def RefCellSlot.expire_with {T : Type} (s : Option T) (expiration : T → Bool) :
    Option T × Nat × List BorrowEvent :=
  match s with
  | none => (none, 0, [BorrowEvent.sharedAcq, BorrowEvent.sharedRel])
  | some v =>
    if expiration v then
      (none, 1, [BorrowEvent.sharedAcq, BorrowEvent.sharedRel,
                 BorrowEvent.mutAcq, BorrowEvent.mutRel])
    else
      (some v, 1, [BorrowEvent.sharedAcq, BorrowEvent.sharedRel])

/-- Shared slot: `impl FastCacheGet for &RefCell<Option<T>>`.
Source: `if self.borrow().is_none() { *self.borrow_mut() = Some(f()); }
Ref::map(self.borrow(), |v| v.as_ref().unwrap())`.  The second returned
component is the slot contents seen by the final borrow, i.e. the argument
of `as_ref().unwrap()` before unwrapping (`none` would mean the unwrap
panics).  Returns (slot after, pre-unwrap handle, filler invocation count,
borrow-event trace); the final `sharedAcq` is the returned `Ref` guard. -/
def RefCellSlot.get_or_insert_with {T : Type} (s : Option T) (f : Unit → T) :
    Option T × Option T × Nat × List BorrowEvent :=
  if s.isNone then
    let v := f ()
    (some v, some v, 1,
     [BorrowEvent.sharedAcq, BorrowEvent.sharedRel,
      BorrowEvent.mutAcq, BorrowEvent.mutRel, BorrowEvent.sharedAcq])
  else
    (s, s, 0,
     [BorrowEvent.sharedAcq, BorrowEvent.sharedRel, BorrowEvent.sharedAcq])

/-- Shared slot: `impl FastCacheMaybeGet for &RefCell<Option<T>>`.
Source: `if self.borrow().is_none() { *self.borrow_mut() = f(); }
if self.borrow().is_some() { Some(Ref::map(self.borrow(), |v|
v.as_ref().unwrap())) } else { None }`.  The unwrap is only reached inside
the `is_some` branch.  Returns (slot after, handle, filler invocation
count, borrow-event trace). -/
def RefCellSlot.maybe_get_or_insert_with {T : Type} (s : Option T)
    (f : Unit → Option T) : Option T × Option T × Nat × List BorrowEvent :=
  let filled :=
    if s.isNone then
      let r := f ()
      (r, 1, [BorrowEvent.sharedAcq, BorrowEvent.sharedRel,
              BorrowEvent.mutAcq, BorrowEvent.mutRel])
    else
      (s, 0, [BorrowEvent.sharedAcq, BorrowEvent.sharedRel])
  if filled.1.isSome then
    (filled.1, filled.1, filled.2.1,
     filled.2.2 ++ [BorrowEvent.sharedAcq, BorrowEvent.sharedRel,
                    BorrowEvent.sharedAcq])
  else
    (filled.1, none, filled.2.1,
     filled.2.2 ++ [BorrowEvent.sharedAcq, BorrowEvent.sharedRel])

/-- The capabilities required of a cache backend by `CacheAccesor`:
the trait bound `C: FastCacheGet<'c, T, R> + FastCacheExpiration<T>`.
`σ` is the slot contents, `R` the handle type; each operation returns the
invocation count of its caller-supplied closure. -/
structure SlotOps (T σ R : Type) where
  expire_with : σ → (T → Bool) → σ × Nat
  get_or_insert_with : σ → (Unit → T) → σ × R × Nat

/-- The capabilities required by `MaybeCacheAccesor`:
`C: FastCacheMaybeGet<'c, T, R> + FastCacheExpiration<T>`. -/
structure MaybeSlotOps (T σ R : Type) where
  expire_with : σ → (T → Bool) → σ × Nat
  maybe_get_or_insert_with : σ → (Unit → Option T) → σ × Option R × Nat

/-- The exclusive-slot instantiation of `SlotOps` (the
`&mut Option<T>` impls; the handle `R = T` models `&'a T` by its value). -/
def optionOps (T : Type) : SlotOps T (Option T) T :=
  { expire_with := OptionSlot.expire_with
    get_or_insert_with := OptionSlot.get_or_insert_with }

/-- The exclusive-slot instantiation of `MaybeSlotOps`. -/
def optionMaybeOps (T : Type) : MaybeSlotOps T (Option T) T :=
  { expire_with := OptionSlot.expire_with
    maybe_get_or_insert_with := OptionSlot.maybe_get_or_insert_with }

/-- The shared-slot instantiation of `SlotOps` (the `&RefCell<Option<T>>`
impls; the handle `R = Option T` models the returned `Ref` guard by the
pre-unwrap slot contents it maps over, as in `RefCellSlot`).  The
borrow-event traces, which the accessor does not consume, are dropped. -/
def refcellOps (T : Type) : SlotOps T (Option T) (Option T) :=
  { expire_with := fun s p =>
      let e := RefCellSlot.expire_with s p
      (e.1, e.2.1)
    get_or_insert_with := fun s f =>
      let g := RefCellSlot.get_or_insert_with s f
      (g.1, g.2.1, g.2.2.1) }

/-- `CacheStateUnknown`: the not-yet-resolved accessor state, holding the
slot, the expiration predicate and the filler. -/
structure CacheStateUnknown (T σ : Type) where
  cache : σ
  expiration : T → Bool
  fill : Unit → T

/-- `CacheStateKnown`: the resolved accessor state, holding the handle. -/
structure CacheStateKnown (R : Type) where
  data : R

/-- `CacheState`: `Unknown(..) | Known(..)`. -/
inductive CacheState (T σ R : Type) where
  | Unknown : CacheStateUnknown T σ → CacheState T σ R
  | Known : CacheStateKnown R → CacheState T σ R

/-- Whether a `CacheState` is in the `Known` variant. -/
def CacheState.isKnown {T σ R : Type} : CacheState T σ R → Bool
  | CacheState.Unknown _ => false
  | CacheState.Known _ => true

/-- The resolution pipeline of `CacheState::into_known`:
`state.cache.expire_with(state.expiration).get_or_insert_with(state.fill)`.
Returns (slot after, handle, predicate invocations, filler invocations);
the slot component records what the external `&mut Option<T>` holds after
the chain. -/
def resolve {T σ R : Type} (ops : SlotOps T σ R) (cache : σ)
    (expiration : T → Bool) (fill : Unit → T) : σ × R × Nat × Nat :=
  let e := ops.expire_with cache expiration
  let g := ops.get_or_insert_with e.1 fill
  (g.1, g.2.1, e.2, g.2.2)

/-- `CacheState::into_known`: on `Unknown`, run expire-then-fill and move to
`Known`; any other state is returned untouched (`v => v`).  Instrumented
with the closure invocation counts of this call. -/
def CacheState.into_known {T σ R : Type} (ops : SlotOps T σ R) :
    CacheState T σ R → CacheState T σ R × Nat × Nat
  | CacheState.Unknown state =>
    let r := resolve ops state.cache state.expiration state.fill
    (CacheState.Known { data := r.2.1 }, r.2.2.1, r.2.2.2)
  | v => (v, 0, 0)

/-- `CacheAccesor` (spelling as in the source): wraps a `CacheState`. -/
structure CacheAccesor (T σ R : Type) where
  state : CacheState T σ R

/-- `FastCacheAccessor::access`: build an `Unknown`-state accessor from the
slot, the expiration predicate and the filler, with no other effect. -/
def access {T σ R : Type} (cache : σ) (expiration : T → Bool)
    (filler : Unit → T) : CacheAccesor T σ R :=
  { state := CacheState.Unknown
      { cache := cache, expiration := expiration, fill := filler } }

/-- `Get::get for CacheAccesor`: replace the state by `into_known` of it,
then match; the `Unknown` arm is `unsafe unreachable_unchecked`, modelled
as `none`.  Returns (accessor after, `some` handle or `none` for the
unreachable arm, predicate invocations, filler invocations). -/
def CacheAccesor.get {T σ R : Type} (ops : SlotOps T σ R)
    (a : CacheAccesor T σ R) : CacheAccesor T σ R × Option R × Nat × Nat :=
  let r := a.state.into_known ops
  match r.1 with
  | CacheState.Unknown _ => ({ state := r.1 }, none, r.2.1, r.2.2)
  | CacheState.Known s => ({ state := r.1 }, some s.data, r.2.1, r.2.2)

/-- `Get::take for CacheAccesor`: `into_known` the state, then move the
handle out; the `Unknown` arm is `unsafe unreachable_unchecked`, modelled
as `none`. -/
def CacheAccesor.take {T σ R : Type} (ops : SlotOps T σ R)
    (a : CacheAccesor T σ R) : Option R × Nat × Nat :=
  let r := a.state.into_known ops
  match r.1 with
  | CacheState.Unknown _ => (none, r.2.1, r.2.2)
  | CacheState.Known s => (some s.data, r.2.1, r.2.2)

/-- `MaybeCacheStateUnknown`: slot, predicate, and optional-value filler. -/
structure MaybeCacheStateUnknown (T σ : Type) where
  cache : σ
  expiration : T → Bool
  fill : Unit → Option T

/-- `MaybeCacheStateKnown`: the resolved state, `data: Option<R>`. -/
structure MaybeCacheStateKnown (R : Type) where
  data : Option R

/-- `MaybeCacheState`: `Unknown(..) | Known(..)`. -/
inductive MaybeCacheState (T σ R : Type) where
  | Unknown : MaybeCacheStateUnknown T σ → MaybeCacheState T σ R
  | Known : MaybeCacheStateKnown R → MaybeCacheState T σ R

/-- Whether a `MaybeCacheState` is in the `Known` variant. -/
def MaybeCacheState.isKnown {T σ R : Type} : MaybeCacheState T σ R → Bool
  | MaybeCacheState.Unknown _ => false
  | MaybeCacheState.Known _ => true

/-- The resolution pipeline of `MaybeCacheState::into_known`:
`expire_with(expiration).maybe_get_or_insert_with(fill)`. -/
def maybe_resolve {T σ R : Type} (ops : MaybeSlotOps T σ R) (cache : σ)
    (expiration : T → Bool) (fill : Unit → Option T) :
    σ × Option R × Nat × Nat :=
  let e := ops.expire_with cache expiration
  let g := ops.maybe_get_or_insert_with e.1 fill
  (g.1, g.2.1, e.2, g.2.2)

/-- `MaybeCacheState::into_known`: as `CacheState::into_known`, with the
optional-fill pipeline. -/
def MaybeCacheState.into_known {T σ R : Type} (ops : MaybeSlotOps T σ R) :
    MaybeCacheState T σ R → MaybeCacheState T σ R × Nat × Nat
  | MaybeCacheState.Unknown state =>
    let r := maybe_resolve ops state.cache state.expiration state.fill
    (MaybeCacheState.Known { data := r.2.1 }, r.2.2.1, r.2.2.2)
  | v => (v, 0, 0)

/-- `MaybeCacheAccesor` (spelling as in the source). -/
structure MaybeCacheAccesor (T σ R : Type) where
  state : MaybeCacheState T σ R

/-- `FastCacheMaybeAccessor::maybe_access`: build an `Unknown`-state
accessor capturing the three inputs, with no other effect. -/
def maybe_access {T σ R : Type} (cache : σ) (expiration : T → Bool)
    (filler : Unit → Option T) : MaybeCacheAccesor T σ R :=
  { state := MaybeCacheState.Unknown
      { cache := cache, expiration := expiration, fill := filler } }

/-- `MaybeGet::get for MaybeCacheAccesor`: `into_known` in place, then
`s.data.as_ref()` in the `Known` arm; the `Unknown` arm is
`unsafe unreachable_unchecked`, modelled as the outer `none`. -/
def MaybeCacheAccesor.get {T σ R : Type} (ops : MaybeSlotOps T σ R)
    (a : MaybeCacheAccesor T σ R) :
    MaybeCacheAccesor T σ R × Option (Option R) × Nat × Nat :=
  let r := a.state.into_known ops
  match r.1 with
  | MaybeCacheState.Unknown _ => ({ state := r.1 }, none, r.2.1, r.2.2)
  | MaybeCacheState.Known s => ({ state := r.1 }, some s.data, r.2.1, r.2.2)

/-- `MaybeGet::take for MaybeCacheAccesor`: `into_known`, then move
`s.data` out; the `Unknown` arm is modelled as the outer `none`. -/
def MaybeCacheAccesor.take {T σ R : Type} (ops : MaybeSlotOps T σ R)
    (a : MaybeCacheAccesor T σ R) : Option (Option R) × Nat × Nat :=
  let r := a.state.into_known ops
  match r.1 with
  | MaybeCacheState.Unknown _ => (none, r.2.1, r.2.2)
  | MaybeCacheState.Known s => (some s.data, r.2.1, r.2.2)

/-- C1: for every slot (exclusive `Option` slot or shared `RefCell` slot)
and every predicate, `expire_with` evaluates the predicate only when a
value is present (invocation count 1 on a full slot, 0 on an empty one);
if the predicate holds the slot is cleared, if not the slot is unchanged,
and an empty slot is always unchanged. -/
theorem expire_with_contract (T : Type) (p : T → Bool) (v : T) :
    OptionSlot.expire_with (none : Option T) p = (none, 0) ∧
    OptionSlot.expire_with (some v) p = ((if p v then none else some v), 1) ∧
    RefCellSlot.expire_with (none : Option T) p =
      (none, 0, [BorrowEvent.sharedAcq, BorrowEvent.sharedRel]) ∧
    RefCellSlot.expire_with (some v) p =
      (if p v then
        (none, 1, [BorrowEvent.sharedAcq, BorrowEvent.sharedRel,
                   BorrowEvent.mutAcq, BorrowEvent.mutRel])
      else
        (some v, 1, [BorrowEvent.sharedAcq, BorrowEvent.sharedRel])) := by
  refine ⟨rfl, ?_, rfl, ?_⟩ <;>
    cases hp : p v <;>
    simp [OptionSlot.expire_with, RefCellSlot.expire_with, hp]

/-- C2: for both slot backends, `get_or_insert_with` on an empty slot
invokes the filler exactly once, stores its result and hands back exactly
that stored value; on a full slot it hands back the existing value with no
filler invocation; in both cases the slot is non-empty afterwards. -/
theorem get_or_insert_with_contract (T : Type) (f : Unit → T) (v : T)
    (s : Option T) :
    OptionSlot.get_or_insert_with (none : Option T) f = (some (f ()), f (), 1) ∧
    OptionSlot.get_or_insert_with (some v) f = (some v, v, 0) ∧
    (OptionSlot.get_or_insert_with s f).1.isSome = true ∧
    RefCellSlot.get_or_insert_with (none : Option T) f =
      (some (f ()), some (f ()), 1,
       [BorrowEvent.sharedAcq, BorrowEvent.sharedRel,
        BorrowEvent.mutAcq, BorrowEvent.mutRel, BorrowEvent.sharedAcq]) ∧
    RefCellSlot.get_or_insert_with (some v) f =
      (some v, some v, 0,
       [BorrowEvent.sharedAcq, BorrowEvent.sharedRel,
        BorrowEvent.sharedAcq]) ∧
    (RefCellSlot.get_or_insert_with s f).1.isSome = true := by
  refine ⟨rfl, rfl, ?_, rfl, ?_, ?_⟩ <;>
    cases s <;>
    simp [OptionSlot.get_or_insert_with, RefCellSlot.get_or_insert_with]

/-- C3: for both slot backends, `maybe_get_or_insert_with` on an empty slot
invokes the filler once and stores its result whether `some` or `none`; on
a full slot it leaves the slot alone with no filler invocation; and the
returned handle always coincides with the slot contents after the call, so
it is `some` exactly when the slot then holds a value. -/
theorem maybe_get_or_insert_with_contract (T : Type) (g : Unit → Option T)
    (v : T) (s : Option T) :
    OptionSlot.maybe_get_or_insert_with (none : Option T) g = (g (), g (), 1) ∧
    OptionSlot.maybe_get_or_insert_with (some v) g = (some v, some v, 0) ∧
    (OptionSlot.maybe_get_or_insert_with s g).2.1 =
      (OptionSlot.maybe_get_or_insert_with s g).1 ∧
    (RefCellSlot.maybe_get_or_insert_with (none : Option T) g).1 = g () ∧
    (RefCellSlot.maybe_get_or_insert_with (none : Option T) g).2.1 = g () ∧
    (RefCellSlot.maybe_get_or_insert_with (none : Option T) g).2.2.1 = 1 ∧
    RefCellSlot.maybe_get_or_insert_with (some v) g =
      (some v, some v, 0,
       [BorrowEvent.sharedAcq, BorrowEvent.sharedRel,
        BorrowEvent.sharedAcq, BorrowEvent.sharedRel,
        BorrowEvent.sharedAcq]) ∧
    (RefCellSlot.maybe_get_or_insert_with s g).2.1 =
      (RefCellSlot.maybe_get_or_insert_with s g).1 := by
  refine ⟨?_, rfl, ?_, ?_, ?_, ?_, ?_, ?_⟩ <;>
    cases s <;>
    cases hg : g () <;>
    simp [OptionSlot.maybe_get_or_insert_with,
          RefCellSlot.maybe_get_or_insert_with, hg]

/-- C4: resolution is total — `into_known` always produces a `Known` state
for both the total-fill `CacheState` and the optional-fill
`MaybeCacheState`, over any backend; hence the `Unknown` arms matched in
`get` and `take` after resolution (the `unsafe unreachable_unchecked`
hints, modelled as `none` results) are never reached. -/
theorem into_known_total (T σ R : Type) (ops : SlotOps T σ R)
    (mops : MaybeSlotOps T σ R) (s : CacheState T σ R)
    (ms : MaybeCacheState T σ R) (a : CacheAccesor T σ R)
    (ma : MaybeCacheAccesor T σ R) :
    (s.into_known ops).1.isKnown = true ∧
    (ms.into_known mops).1.isKnown = true ∧
    (CacheAccesor.get ops a).2.1.isSome = true ∧
    (CacheAccesor.take ops a).1.isSome = true ∧
    (MaybeCacheAccesor.get mops ma).2.1.isSome = true ∧
    (MaybeCacheAccesor.take mops ma).1.isSome = true := by
  obtain ⟨sa⟩ := a
  obtain ⟨sma⟩ := ma
  cases s <;> cases ms <;> cases sa <;> cases sma <;>
    simp [CacheState.into_known, MaybeCacheState.into_known,
          CacheState.isKnown, MaybeCacheState.isKnown,
          CacheAccesor.get, CacheAccesor.take,
          MaybeCacheAccesor.get, MaybeCacheAccesor.take]

/-- C5: resolution is a one-time gate per accessor — a second `get` after a
first `get` performs no predicate or filler invocation and returns the same
handle and the same (already-`Known`) state, and `into_known` applied to an
already-`Known` state returns it unchanged with zero invocations; for both
the total-fill and the optional-fill accessors, over any backend. -/
theorem repeated_get_idempotent (T σ R : Type) (ops : SlotOps T σ R)
    (mops : MaybeSlotOps T σ R) (a : CacheAccesor T σ R)
    (ma : MaybeCacheAccesor T σ R) (d : R) (md : Option R) :
    CacheAccesor.get ops (CacheAccesor.get ops a).1 =
      ((CacheAccesor.get ops a).1, (CacheAccesor.get ops a).2.1, 0, 0) ∧
    MaybeCacheAccesor.get mops (MaybeCacheAccesor.get mops ma).1 =
      ((MaybeCacheAccesor.get mops ma).1,
       (MaybeCacheAccesor.get mops ma).2.1, 0, 0) ∧
    CacheState.into_known ops (CacheState.Known { data := d }) =
      (CacheState.Known { data := d }, 0, 0) ∧
    MaybeCacheState.into_known mops (MaybeCacheState.Known { data := md }) =
      (MaybeCacheState.Known { data := md }, 0, 0) := by
  obtain ⟨sa⟩ := a
  obtain ⟨sma⟩ := ma
  cases sa <;> cases sma <;>
    simp [CacheState.into_known, MaybeCacheState.into_known,
          CacheAccesor.get, MaybeCacheAccesor.get]

/-- C6: on both slot backends (exclusive `Option` slot and shared
`RefCell` slot), `take()` on a freshly built accessor (no prior `get()`)
returns exactly what `get()` would return on the same starting state —
same handle and same invocation counts — and that single resolution
invokes the expiration predicate at most once and the filler at most
once. -/
theorem take_equals_get_on_fresh (T : Type) (s : Option T) (p : T → Bool)
    (f : Unit → T) :
    CacheAccesor.take (optionOps T) (access s p f) =
      (CacheAccesor.get (optionOps T) (access s p f)).2 ∧
    (CacheAccesor.take (optionOps T) (access s p f)).2.1 ≤ 1 ∧
    (CacheAccesor.take (optionOps T) (access s p f)).2.2 ≤ 1 ∧
    CacheAccesor.take (refcellOps T) (access s p f) =
      (CacheAccesor.get (refcellOps T) (access s p f)).2 ∧
    (CacheAccesor.take (refcellOps T) (access s p f)).2.1 ≤ 1 ∧
    (CacheAccesor.take (refcellOps T) (access s p f)).2.2 ≤ 1 := by
  rcases s with _ | v
  · refine ⟨?_, ?_, ?_, ?_, ?_, ?_⟩ <;>
      simp [access, CacheAccesor.take, CacheAccesor.get,
            CacheState.into_known, resolve, optionOps, refcellOps,
            OptionSlot.expire_with, OptionSlot.get_or_insert_with,
            RefCellSlot.expire_with, RefCellSlot.get_or_insert_with]
  · cases hp : p v <;>
      refine ⟨?_, ?_, ?_, ?_, ?_, ?_⟩ <;>
      simp [access, CacheAccesor.take, CacheAccesor.get,
            CacheState.into_known, resolve, optionOps, refcellOps,
            OptionSlot.expire_with, OptionSlot.get_or_insert_with,
            RefCellSlot.expire_with, RefCellSlot.get_or_insert_with, hp]

/-- C7: when the exclusive slot holds `v` and the predicate accepts `v`,
resolution first clears the slot (`expire_with` yields the empty slot),
then invokes the filler exactly once, stores its result, and `get()` on the
accessor returns exactly that freshly produced value (with one predicate
invocation and one filler invocation). -/
theorem expire_then_fill (T : Type) (v : T) (p : T → Bool) (f : Unit → T)
    (h : p v = true) :
    OptionSlot.expire_with (some v) p = (none, 1) ∧
    resolve (optionOps T) (some v) p f = (some (f ()), f (), 1, 1) ∧
    CacheAccesor.get (optionOps T) (access (some v) p f) =
      ({ state := CacheState.Known { data := f () } }, some (f ()), 1, 1) := by
  refine ⟨?_, ?_, ?_⟩ <;>
    simp [OptionSlot.expire_with, OptionSlot.get_or_insert_with, resolve,
          optionOps, access, CacheAccesor.get, CacheState.into_known, h]

/-- Witness for C7 at the spec scenario: slot holding 7, predicate true on
7, filler producing 8. -/
theorem expire_then_fill_witness :
    OptionSlot.expire_with (some 7) (fun _ => true) = (none, 1) ∧
    resolve (optionOps Nat) (some 7) (fun _ => true) (fun _ => 8) =
      (some 8, 8, 1, 1) ∧
    CacheAccesor.get (optionOps Nat)
        (access (some 7) (fun _ => true) (fun _ => 8)) =
      ({ state := CacheState.Known { data := 8 } }, some 8, 1, 1) :=
  expire_then_fill Nat 7 (fun _ => true) (fun _ => 8) rfl

/-- C8: on an empty exclusive slot with an optional filler returning
`none`, `get()` on the maybe-accessor returns the absent handle (inner
`none`) after exactly one filler invocation, the slot remains empty, and a
second `get()` on the resulting accessor still returns the absent handle
with zero further predicate or filler invocations. -/
theorem maybe_none_terminal (T : Type) (p : T → Bool) (g : Unit → Option T)
    (h : g () = none) :
    MaybeCacheAccesor.get (optionMaybeOps T) (maybe_access none p g) =
      ({ state := MaybeCacheState.Known { data := none } }, some none, 0, 1) ∧
    (maybe_resolve (optionMaybeOps T) none p g).1 = none ∧
    MaybeCacheAccesor.get (optionMaybeOps T)
        (MaybeCacheAccesor.get (optionMaybeOps T) (maybe_access none p g)).1 =
      ({ state := MaybeCacheState.Known { data := none } }, some none, 0, 0) := by
  refine ⟨?_, ?_, ?_⟩ <;>
    simp [maybe_access, MaybeCacheAccesor.get, MaybeCacheState.into_known,
          maybe_resolve, optionMaybeOps, OptionSlot.expire_with,
          OptionSlot.maybe_get_or_insert_with, h]

/-- Witness for C8 at the spec scenario: empty slot, filler always
`none : Option Int`. -/
theorem maybe_none_terminal_witness :
    MaybeCacheAccesor.get (optionMaybeOps Int)
        (maybe_access none (fun _ => false) (fun _ => none)) =
      ({ state := MaybeCacheState.Known { data := none } }, some none, 0, 1) ∧
    (maybe_resolve (optionMaybeOps Int) none (fun _ => false)
        (fun _ => none)).1 = none ∧
    MaybeCacheAccesor.get (optionMaybeOps Int)
        (MaybeCacheAccesor.get (optionMaybeOps Int)
          (maybe_access none (fun _ => false) (fun _ => none))).1 =
      ({ state := MaybeCacheState.Known { data := none } }, some none, 0, 0) :=
  maybe_none_terminal Int (fun _ => false) (fun _ => none) rfl

/-- C9 as stated is refuted: over an initially empty exclusive slot, a
first accessor whose filler produces 1 takes a freshly filled 1 and leaves
the slot holding 1; but a second accessor whose expiration predicate
accepts 1 finds the slot non-empty yet expires it, invokes its own filler
(count 1, not 0), and yields 2, not the value stored by the first. -/
theorem back_to_back_counterexample :
    CacheAccesor.take (optionOps Nat)
        (access none (fun _ => false) (fun _ => 1)) = (some 1, 0, 1) ∧
    (resolve (optionOps Nat) none (fun _ => false) (fun _ => 1)).1 = some 1 ∧
    CacheAccesor.take (optionOps Nat)
        (access (some 1) (fun _ => true) (fun _ => 2)) = (some 2, 1, 1) :=
  ⟨rfl, rfl, rfl⟩

/-- C9 amended: over an initially empty exclusive slot, a first accessor
takes its freshly filled value (one filler invocation) and leaves the slot
holding it; a second accessor whose expiration predicate rejects that
stored value resolves without invoking its own filler and yields the value
stored by the first. -/
theorem back_to_back_second_reuses (T : Type) (p1 p2 : T → Bool)
    (f1 f2 : Unit → T) (h : p2 (f1 ()) = false) :
    CacheAccesor.take (optionOps T) (access none p1 f1) =
      (some (f1 ()), 0, 1) ∧
    (resolve (optionOps T) none p1 f1).1 = some (f1 ()) ∧
    CacheAccesor.take (optionOps T) (access (some (f1 ())) p2 f2) =
      (some (f1 ()), 1, 0) := by
  refine ⟨?_, ?_, ?_⟩ <;>
    simp [access, CacheAccesor.take, CacheState.into_known, resolve,
          optionOps, OptionSlot.expire_with, OptionSlot.get_or_insert_with, h]

/-- Witness for the amended C9: both predicates reject everything, fillers
produce 1 and 2; the second take yields the stored 1 with no second filler
invocation. -/
theorem back_to_back_second_reuses_witness :
    CacheAccesor.take (optionOps Nat)
        (access none (fun _ => false) (fun _ => 1)) = (some 1, 0, 1) ∧
    (resolve (optionOps Nat) none (fun _ => false) (fun _ => 1)).1 = some 1 ∧
    CacheAccesor.take (optionOps Nat)
        (access (some 1) (fun _ => false) (fun _ => 2)) = (some 1, 1, 0) :=
  back_to_back_second_reuses Nat (fun _ => false) (fun _ => false)
    (fun _ => 1) (fun _ => 2) rfl

/-- C10: on the shared `RefCell` slot starting with no outstanding borrows,
the borrow-event traces of `get_or_insert_with` and
`maybe_get_or_insert_with` pass the dynamic borrow checker (every borrow is
released before a conflicting one is acquired; in particular the exclusive
borrow is never held while the final shared borrow is taken); the handle
always equals the slot contents after the call, so `get_or_insert_with`'s
internal unwrap is only ever applied to a non-empty slot and never fails. -/
theorem refcell_borrow_discipline (T : Type) (s : Option T) (f : Unit → T)
    (g : Unit → Option T) :
    borrowOk (RefCellSlot.get_or_insert_with s f).2.2.2 = true ∧
    (RefCellSlot.get_or_insert_with s f).2.1 =
      (RefCellSlot.get_or_insert_with s f).1 ∧
    (RefCellSlot.get_or_insert_with s f).1.isSome = true ∧
    borrowOk (RefCellSlot.maybe_get_or_insert_with s g).2.2.2 = true ∧
    (RefCellSlot.maybe_get_or_insert_with s g).2.1 =
      (RefCellSlot.maybe_get_or_insert_with s g).1 := by
  refine ⟨?_, ?_, ?_, ?_, ?_⟩ <;>
    cases s <;>
    cases hg : g () <;>
    simp [RefCellSlot.get_or_insert_with,
          RefCellSlot.maybe_get_or_insert_with, hg, borrowOk, borrowStep]

end ScreepsCache
